import Mathlib

/-!
Verification of the chat-analysis pipeline (gpt-chat-analysis).

This file gives a shallow embedding, in Lean 4, of the parts of the
repository that the specification's claims are about:

* `FileValidator.verify_md_format`  (src/file_validator.py)
* `ConversationData.analyze_and_save_chat` and its status taxonomy
  (src/conversation_data.py)
* the `traverse_messages` tree walk inside
  `ConversationData._load_chat_data` (src/conversation_data.py)
* `TrendProcessor._should_process_file`, `_process_file_with_cache`,
  `_analyze_with_openai` and `_generate_summary` (src/trend_processor.py)

External effects (the OpenAI gateway, the filesystem, `json.loads`) are
modelled as explicit inputs: a job receives the gateway's behaviour as a
value of an inductive type, and the filesystem state relevant to one job
(the final report file and its temporary sibling) is threaded explicitly.
Python exceptions that the source catches are modelled by the
corresponding branch; exceptions the source lets escape are modelled with
`Except`.  Python float arithmetic on token estimates and percentages is
embedded exactly over `ℚ` (the quantities involved are exact in both).
-/

namespace ChatAnalysis

/-! ## String containment

Python's `pat in content` substring test, embedded on character lists. -/

/-- Occurrence test at one position: the pattern starts at index `i`. -/
def occursAt (l pat : List Char) (i : Nat) : Bool :=
  pat.isPrefixOf (l.drop i)

/-- Substring test on character lists. -/
def listContainsSub (l pat : List Char) : Bool :=
  (List.range (l.length + 1)).any (fun i => occursAt l pat i)

/-- Substring test: `pyContains content pat` is Python's `pat in content`. -/
def pyContains (content pat : String) : Bool :=
  listContainsSub content.toList pat.toList

/-- Python's `str.strip()` whitespace set. -/
def isPyWS (c : Char) : Bool :=
  c = ' ' || c = '\t' || c = '\n' || c = '\r' || c = '\x0b' || c = '\x0c'

/-- Python `str.strip()`: drop whitespace from both ends. -/
def pyStrip (s : String) : String :=
  String.mk ((((s.toList.dropWhile isPyWS).reverse.dropWhile isPyWS).reverse))

/-- Python `str.lower()`; the characters this system compares after
lowering are ASCII, where `Char.toLower` agrees with Python. -/
def pyLower (s : String) : String :=
  String.mk (s.toList.map Char.toLower)

/-- Python `str.startswith(pat)`. -/
def pyStartsWith (s pat : String) : Bool :=
  pat.toList.isPrefixOf s.toList

/-- Left-to-right non-overlapping replacement, with structural fuel (one
unit of fuel covers at least one consumed character, so `length + 1`
fuel always suffices).  An empty pattern is left alone (the source only
replaces nonempty patterns). -/
def replaceAllFuel : Nat → List Char → List Char → List Char → List Char
  | 0, l, _, _ => l
  | fuel + 1, l, pat, rep =>
    match l with
    | [] => []
    | c :: rest =>
      if pat ≠ [] ∧ pat.isPrefixOf (c :: rest) then
        rep ++ replaceAllFuel fuel ((c :: rest).drop pat.length) pat rep
      else
        c :: replaceAllFuel fuel rest pat rep

/-- Python `str.replace(pat, rep)`. -/
def pyReplace (s pat rep : String) : String :=
  String.mk (replaceAllFuel (s.toList.length + 1) s.toList pat.toList rep.toList)

/-! ## FileValidator (src/file_validator.py)

`verify_md_format` reads the file and checks its content; we embed the
check on the content string (the caller in `analyze_and_save_chat` has
just written that exact content to the temp file). -/

/-- The fixed required section headings of `FileValidator.verify_md_format`
(src/file_validator.py lines 21-35). -/
def required_sections : List String :=
  [ "# 1. Brief Summary",
    "# 2. Five-Step Decision Loop Analysis",
    "## Step 1: Problem Framing & Initial Prompting",
    "## Step 2: Response Evaluation & Validation",
    "## Step 3: Expertise Application",
    "## Step 4: Critical Assessment",
    "### 4.1 Loop Completion Analysis",
    "### 4.2 Breakdown Analysis",
    "## Step 5: Process Improvement",
    "# 3. Collaborative Pattern Analysis",
    "## Observed Patterns",
    "## Novel Patterns",
    "# 4. Recommendations" ]

/-- The deny-list of generic placeholder phrases
(src/file_validator.py lines 42-46). -/
def generic_content_indicators : List String :=
  [ "The USER engaged with the AI",
    "objectives and approach are not provided",
    "lack of conversation content" ]

/-- `FileValidator.verify_md_format` on the file's content: reject when any
generic-content indicator is present, then reject when the list of missing
required sections is nonempty, else accept (src/file_validator.py
lines 37-69). -/
def verify_md_format (content : String) : Bool :=
  if generic_content_indicators.any (fun ind => pyContains content ind) then
    false
  else
    let missing_sections := required_sections.filter (fun s => !pyContains content s)
    if missing_sections ≠ [] then false else true

/-! ## One analysis job (ConversationData.analyze_and_save_chat)

src/conversation_data.py lines 52-197.  The job's observable inputs are:
whether the final report file already exists (and its content), the
message list (only the Python `len(str(msg))` of each message matters to
the admission check), and the gateway's behaviour.  Its observable
outputs are the resulting filesystem state for this chat id, the status
string, and whether the gateway was actually called. -/

/-- The status strings returned by `analyze_and_save_chat`. -/
inductive Status
  | success
  | skipped
  | format_error
  | api_error
  | cancelled
deriving DecidableEq, Repr

/-- Behaviour of one `chat.completions.create` call as observed by the
`try` block of src/conversation_data.py lines 135-160: the timeout branch,
the `KeyboardInterrupt` branch, the generic-exception branch, or a
response whose `choices[0].message.content` is the given optional text. -/
inductive GatewayResult
  | timeout
  | interrupt
  | failure
  | response (content : Option String)
deriving DecidableEq, Repr

/-- A chat message as the admission check sees it: the Python
`len(str(msg))` of the message dict. -/
structure ChatMsg where
  strLen : Nat
deriving DecidableEq, Repr

/-- Filesystem state for one chat id: the final `{chat_id}.md` file's
content (if it exists) and the `{chat_id}.md.tmp` sibling's content. -/
structure JobFS where
  final : Option String
  temp : Option String
deriving DecidableEq, Repr

/-- Admission check of src/conversation_data.py lines 72-73:
`sum(len(str(msg)) / 4 for msg in messages) > 120000`.  The quotient and
the comparison are exact, so over the integers the condition is
`sum of lengths > 480000`. -/
def token_limit_exceeded (messages : List ChatMsg) : Bool :=
  480000 < (messages.map (fun m => m.strLen)).sum

/-- Python truthiness of the optional response content used by
`if analysis:` (src/conversation_data.py line 163). -/
def analysisTruthy (content : Option String) : Bool :=
  match content with
  | none => false
  | some s => s ≠ ""

/-- `ConversationData.analyze_and_save_chat` (src/conversation_data.py
lines 52-197), returning the new filesystem state, the status, and
whether the gateway was called.  In order: skip when the final file
exists (lines 67-69); skip when the token estimate exceeds the limit
(lines 72-75); call the gateway -- timeout, `KeyboardInterrupt` and other
exceptions map to `api_error` / `cancelled` / `api_error` (lines 152-160);
on a truthy response, write the temp file, validate, and either rename it
into place (`success`) or delete it (`format_error`) (lines 163-190); a
falsy response is `api_error` (line 192). -/
def analyze_and_save_chat (fs : JobFS) (messages : List ChatMsg)
    (gw : GatewayResult) : JobFS × Status × Bool :=
  if fs.final.isSome then
    (fs, Status.skipped, false)
  else if token_limit_exceeded messages then
    (fs, Status.skipped, false)
  else
    match gw with
    | GatewayResult.timeout => (fs, Status.api_error, true)
    | GatewayResult.interrupt => (fs, Status.cancelled, true)
    | GatewayResult.failure => (fs, Status.api_error, true)
    | GatewayResult.response content =>
      if analysisTruthy content then
        let analysis := content.getD ""
        -- temp file written with the analysis, then validated
        if verify_md_format analysis then
          ({ final := some analysis, temp := none }, Status.success, true)
        else
          ({ fs with temp := none }, Status.format_error, true)
      else
        (fs, Status.api_error, true)

/-! ## Conversation tree traversal (traverse_messages)

src/conversation_data.py lines 413-460, the closure inside
`ConversationData._load_chat_data`.  The conversation `mapping` is a
JSON object from node id to node data; each node data has an optional
`message` and an optional `parent` id. -/

/-- Author of a message (`message['author']`); only the role matters to
the traversal. -/
structure Author where
  role : String
deriving DecidableEq, Repr

/-- The `message` payload of a node as the traversal reads it: author,
`content.parts`, the `metadata.is_visually_hidden_from_conversation`
flag, and the optional `create_time`. -/
structure NodeMessage where
  author : Author
  parts : List String
  hidden : Bool
  create_time : Option Int
deriving DecidableEq, Repr

/-- One value of the conversation `mapping`: optional message payload and
optional parent node id. -/
structure Node where
  parent : Option String
  message : Option NodeMessage
deriving DecidableEq, Repr

/-- A recorded message appended to the result list
(src/conversation_data.py lines 450-454). -/
structure RecMsg where
  author : Author
  parts : List String
  create_time : Int
deriving DecidableEq, Repr

/-- The conversation `mapping` as an association list (a Python dict has
unique keys; nothing below requires that). -/
abbrev Mapping := List (String × Node)

/-- Dict lookup `mapping.get(node_id)` (src/conversation_data.py
line 421). -/
def lookupNode (mapping : Mapping) (k : String) : Option Node :=
  match mapping with
  | [] => none
  | (k₀, n) :: rest => if k₀ = k then some n else lookupNode rest k

/-- The message a node contributes, if any (src/conversation_data.py
lines 435-454): present `message`, author role not `system`, not
visually hidden, nonempty `parts` whose first element is truthy; the
recorded `create_time` defaults to the conversation's. -/
def recordOf (convTime : Int) (node : Node) : Option RecMsg :=
  match node.message with
  | none => none
  | some m =>
    if m.author.role ≠ "system" ∧ m.hidden = false then
      match m.parts.head? with
      | none => none
      | some t => if t ≠ "" then some ⟨m.author, m.parts, m.create_time.getD convTime⟩ else none
    else none

/-- Measure for the traversal: how many distinct mapping keys are not yet
visited. -/
def remainingKeys (mapping : Mapping) (visited : List String) : Nat :=
  ((mapping.map Prod.fst).toFinset \ visited.toFinset).card

theorem lookupNode_mem {mapping : Mapping} {k : String} {n : Node}
    (h : lookupNode mapping k = some n) : k ∈ mapping.map Prod.fst := by
  induction mapping with
  | nil => simp [lookupNode] at h
  | cons p rest ih =>
    rw [lookupNode] at h
    by_cases hk : p.1 = k
    · simp [hk]
    · simp [hk] at h
      simpa using Or.inr (ih h)

theorem remainingKeys_lt {mapping : Mapping} {nodeId : String} {node : Node}
    (hmem : lookupNode mapping nodeId = some node) (hvis : nodeId ∉ visited) :
    remainingKeys mapping (nodeId :: visited) < remainingKeys mapping visited := by
  apply Finset.card_lt_card
  constructor
  · intro x hx
    simp only [Finset.mem_sdiff, List.mem_toFinset, List.toFinset_cons,
      Finset.mem_insert] at hx ⊢
    exact ⟨hx.1, fun hx2 => hx.2 (Or.inr hx2)⟩
  · intro hsub
    have h1 : nodeId ∈ (mapping.map Prod.fst).toFinset \ visited.toFinset := by
      simp only [Finset.mem_sdiff, List.mem_toFinset]
      exact ⟨lookupNode_mem hmem, hvis⟩
    have h2 := hsub h1
    simp [Finset.mem_sdiff, List.toFinset_cons] at h2

/-- `traverse_messages` (src/conversation_data.py lines 413-460): stop on
a revisited id, stop on an id absent from the mapping, otherwise collect
the parent's messages first and append this node's recorded message. -/
def traverse_messages (mapping : Mapping) (convTime : Int) (nodeId : String)
    (visited : List String) : List RecMsg :=
  if nodeId ∈ visited then []
  else
    match hnode : lookupNode mapping nodeId with
    | none => []
    | some node =>
      let rest :=
        match node.parent with
        | some p => traverse_messages mapping convTime p (nodeId :: visited)
        | none => []
      rest ++ (recordOf convTime node).toList
termination_by remainingKeys mapping visited
decreasing_by
  exact remainingKeys_lt hnode (by assumption)

/-- Instrumented form of the same walk: the sequence of (node id, node)
pairs the traversal processes, leaf first, following `parent` links. -/
def traverseChain (mapping : Mapping) (nodeId : String)
    (visited : List String) : List (String × Node) :=
  if nodeId ∈ visited then []
  else
    match hnode : lookupNode mapping nodeId with
    | none => []
    | some node =>
      (nodeId, node) ::
        (match node.parent with
         | some p => traverseChain mapping p (nodeId :: visited)
         | none => [])
termination_by remainingKeys mapping visited
decreasing_by
  exact remainingKeys_lt hnode (by assumption)

theorem traverseChain_visited {m : Mapping} {n : String} {v : List String}
    (h : n ∈ v) : traverseChain m n v = [] := by
  unfold traverseChain
  simp [h]

theorem traverseChain_nolookup {m : Mapping} {n : String} {v : List String}
    (hv : n ∉ v) (hl : lookupNode m n = none) : traverseChain m n v = [] := by
  unfold traverseChain
  rw [if_neg hv]
  split
  · rfl
  · simp_all

theorem traverseChain_step {m : Mapping} {n : String} {v : List String} {node : Node}
    (hv : n ∉ v) (hl : lookupNode m n = some node) :
    traverseChain m n v =
      (n, node) ::
        (match node.parent with
         | some p => traverseChain m p (n :: v)
         | none => []) := by
  conv_lhs => unfold traverseChain
  rw [if_neg hv]
  split
  · simp_all
  · rename_i node₀ heq
    rw [hl] at heq
    cases heq
    rfl

theorem traverse_messages_visited {m : Mapping} {t : Int} {n : String} {v : List String}
    (h : n ∈ v) : traverse_messages m t n v = [] := by
  unfold traverse_messages
  simp [h]

theorem traverse_messages_nolookup {m : Mapping} {t : Int} {n : String} {v : List String}
    (hv : n ∉ v) (hl : lookupNode m n = none) : traverse_messages m t n v = [] := by
  unfold traverse_messages
  rw [if_neg hv]
  split
  · rfl
  · simp_all

theorem traverse_messages_step {m : Mapping} {t : Int} {n : String} {v : List String}
    {node : Node} (hv : n ∉ v) (hl : lookupNode m n = some node) :
    traverse_messages m t n v =
      (match node.parent with
       | some p => traverse_messages m t p (n :: v)
       | none => []) ++ (recordOf t node).toList := by
  conv_lhs => unfold traverse_messages
  rw [if_neg hv]
  split
  · simp_all
  · rename_i node₀ heq
    rw [hl] at heq
    cases heq
    rfl

theorem traverseChain_step_parent {m : Mapping} {n p : String} {v : List String}
    {node : Node} (hv : n ∉ v) (hl : lookupNode m n = some node)
    (hp : node.parent = some p) :
    traverseChain m n v = (n, node) :: traverseChain m p (n :: v) := by
  rw [traverseChain_step hv hl, hp]

theorem traverseChain_step_root {m : Mapping} {n : String} {v : List String}
    {node : Node} (hv : n ∉ v) (hl : lookupNode m n = some node)
    (hp : node.parent = none) :
    traverseChain m n v = [(n, node)] := by
  rw [traverseChain_step hv hl, hp]

theorem traverse_messages_step_parent {m : Mapping} {t : Int} {n p : String}
    {v : List String} {node : Node} (hv : n ∉ v) (hl : lookupNode m n = some node)
    (hp : node.parent = some p) :
    traverse_messages m t n v =
      traverse_messages m t p (n :: v) ++ (recordOf t node).toList := by
  rw [traverse_messages_step hv hl, hp]

theorem traverse_messages_step_root {m : Mapping} {t : Int} {n : String}
    {v : List String} {node : Node} (hv : n ∉ v) (hl : lookupNode m n = some node)
    (hp : node.parent = none) :
    traverse_messages m t n v = (recordOf t node).toList := by
  rw [traverse_messages_step hv hl, hp]
  rfl

theorem traverseChain_head (m : Mapping) (n : String) (v : List String) :
    ∀ pr ∈ (traverseChain m n v).head?, pr.1 = n := by
  by_cases hv : n ∈ v
  · simp [traverseChain_visited hv]
  · cases hl : lookupNode m n with
    | none => simp [traverseChain_nolookup hv hl]
    | some node =>
      rw [traverseChain_step hv hl]
      intro pr hpr
      simp at hpr
      subst hpr
      rfl

theorem traverseChain_mem_nodup (m : Mapping) :
    ∀ (n : String) (v : List String),
      (∀ pr ∈ traverseChain m n v, pr.1 ∉ v ∧ lookupNode m pr.1 = some pr.2) ∧
      ((traverseChain m n v).map Prod.fst).Nodup := by
  intro n v
  induction n, v using (traverseChain.induct m) with
  | case1 n v hv => simp [traverseChain_visited hv]
  | case2 n v hv hl => simp [traverseChain_nolookup hv hl]
  | case3 n v hv node hl ih =>
    cases hp : node.parent with
    | none =>
      rw [traverseChain_step_root hv hl hp]
      refine ⟨?_, by simp⟩
      intro pr hpr
      simp at hpr
      subst hpr
      exact ⟨hv, hl⟩
    | some p =>
      rw [traverseChain_step_parent hv hl hp]
      obtain ⟨ih1, ih2⟩ := ih p
      constructor
      · intro pr hpr
        rcases List.mem_cons.1 hpr with h | h
        · rw [h]; exact ⟨hv, hl⟩
        · obtain ⟨h1, h2⟩ := ih1 pr h
          exact ⟨fun hx => h1 (List.mem_cons_of_mem _ hx), h2⟩
      · simp only [List.map_cons]
        refine List.nodup_cons.2 ⟨?_, ih2⟩
        intro hmem
        obtain ⟨pr, hpr, hfst⟩ := List.mem_map.1 hmem
        exact (ih1 pr hpr).1 (by rw [hfst]; exact List.mem_cons_self n v)

theorem traverseChain_length (m : Mapping) :
    ∀ (n : String) (v : List String),
      (traverseChain m n v).length ≤ remainingKeys m v := by
  intro n v
  induction n, v using (traverseChain.induct m) with
  | case1 n v hv => simp [traverseChain_visited hv]
  | case2 n v hv hl => simp [traverseChain_nolookup hv hl]
  | case3 n v hv node hl ih =>
    have hlt := remainingKeys_lt hl hv
    cases hp : node.parent with
    | none =>
      rw [traverseChain_step_root hv hl hp]
      simp only [List.length_cons, List.length_nil]
      omega
    | some p =>
      rw [traverseChain_step_parent hv hl hp]
      have hp' := ih p
      simp only [List.length_cons]
      omega

theorem remainingKeys_nil_le (m : Mapping) : remainingKeys m [] ≤ m.length := by
  unfold remainingKeys
  simp only [List.toFinset_nil, Finset.sdiff_empty]
  calc (m.map Prod.fst).toFinset.card ≤ (m.map Prod.fst).length := List.toFinset_card_le _
    _ = m.length := List.length_map _ _

theorem traverse_messages_eq_chain (m : Mapping) (t : Int) :
    ∀ (n : String) (v : List String),
      traverse_messages m t n v =
        ((traverseChain m n v).filterMap (fun pr => recordOf t pr.2)).reverse := by
  intro n v
  induction n, v using (traverseChain.induct m) with
  | case1 n v hv => simp [traverse_messages_visited hv, traverseChain_visited hv]
  | case2 n v hv hl => simp [traverse_messages_nolookup hv hl, traverseChain_nolookup hv hl]
  | case3 n v hv node hl ih =>
    cases hp : node.parent with
    | none =>
      rw [traverse_messages_step_root hv hl hp, traverseChain_step_root hv hl hp]
      simp only [List.filterMap_cons]
      cases recordOf t node <;> simp
    | some p =>
      rw [traverse_messages_step_parent hv hl hp, traverseChain_step_parent hv hl hp,
        ih p]
      simp only [List.filterMap_cons]
      cases recordOf t node <;> simp

theorem traverseChain_parent_links (m : Mapping) :
    ∀ (n : String) (v : List String),
      List.Chain' (fun a b => a.2.parent = some b.1) (traverseChain m n v) := by
  intro n v
  induction n, v using (traverseChain.induct m) with
  | case1 n v hv => simp [traverseChain_visited hv]
  | case2 n v hv hl => simp [traverseChain_nolookup hv hl]
  | case3 n v hv node hl ih =>
    cases hp : node.parent with
    | none => rw [traverseChain_step_root hv hl hp]; simp
    | some p =>
      rw [traverseChain_step_parent hv hl hp]
      refine List.chain'_cons'.2 ⟨?_, ih p⟩
      intro y hy
      have hy1 := traverseChain_head m p (n :: v) y hy
      simp [hp, hy1]

/-- C2: for every conversation mapping and starting node id, the walk
`traverseChain` that `traverse_messages` performs visits no node id
twice (its ids are `Nodup`), takes at most `|mapping|` record-and-move
steps, every processed node is looked up in the mapping, consecutive
processed nodes follow `parent` links (so later chain entries are
parent-chain ancestors of earlier ones), and the returned message list
is exactly the reversal of the messages recorded along that walk --
hence each message's parent-chain ancestors appear before it
(chronological order). -/
theorem c2_traverse_messages_sound (mapping : Mapping) (convTime : Int) (nodeId : String) :
    ((traverseChain mapping nodeId []).map Prod.fst).Nodup ∧
    (traverseChain mapping nodeId []).length ≤ mapping.length ∧
    traverse_messages mapping convTime nodeId [] =
      ((traverseChain mapping nodeId []).filterMap (fun pr => recordOf convTime pr.2)).reverse ∧
    List.Chain' (fun a b => a.2.parent = some b.1) (traverseChain mapping nodeId []) ∧
    (∀ pr ∈ traverseChain mapping nodeId [], lookupNode mapping pr.1 = some pr.2) :=
  ⟨(traverseChain_mem_nodup mapping nodeId []).2,
   le_trans (traverseChain_length mapping nodeId []) (remainingKeys_nil_le mapping),
   traverse_messages_eq_chain mapping convTime nodeId [],
   traverseChain_parent_links mapping nodeId [],
   fun pr h => ((traverseChain_mem_nodup mapping nodeId []).1 pr h).2⟩

/-! ## TrendProcessor cache decisions (src/trend_processor.py)

`_should_process_file` compares the input markdown's modification time
with the structured sibling JSON's; `_process_file_with_cache` loads the
sibling on a cache hit.  Modification times are Python floats compared
only with `>=`; they are embedded as rationals. -/

/-- `TrendProcessor._should_process_file` (src/trend_processor.py
lines 37-59): process when `force_reprocess` is set; otherwise skip
exactly when the sibling JSON exists and is not older than the markdown
input. -/
def should_process_file (force_reprocess jsonExists : Bool)
    (mdMtime jsonMtime : ℚ) : Bool :=
  if force_reprocess then true
  else if jsonExists then
    if jsonMtime ≥ mdMtime then false else true
  else true

/-- The `loop_completion` object of a structured analysis. -/
structure LoopCompletion where
  completed : Bool
  exit_at_step_one : Bool
  skipped_validation : Bool
deriving DecidableEq, Repr

/-- The `breakdown` object of a structured analysis. -/
structure Breakdown where
  exit_step : String
  failure_reason : String
deriving DecidableEq, Repr

/-- The `insights` object of a structured analysis. -/
structure Insights where
  novel_patterns : Bool
  ai_partnership : Bool
  ai_as_critic : Bool
  decision_intelligence : Bool
deriving DecidableEq, Repr

/-- A structured analysis record: the JSON shape written to the
`{name}.json` sibling and re-read on cache hits.  `json.loads` is the
Python standard library; it is modelled as an abstract parse that either
yields such a record or fails, and a stored file that cannot be read or
parsed is `none`. -/
structure Analysis where
  loop_completion : LoopCompletion
  breakdown : Breakdown
  insights : Insights
deriving DecidableEq, Repr

/-- One per-file statistics record consumed by `_generate_summary`
(src/trend_processor.py lines 81-92 and 302-313).  The source stores
`completed` as the int `0`/`1` and the insight flags as bools on the
cached path and ints on the fresh path; the summary reads `completed`
with `== 1` and the flags by truthiness, so flags are embedded as bools.
The fresh path's constant `total: 1` field is unused downstream and
omitted. -/
structure TStats where
  completed : Nat
  exit_at_step_one : Bool
  skipped_validation : Bool
  exit_step : String
  failure_reason : String
  novel_patterns : Bool
  ai_partnership : Bool
  ai_as_critic : Bool
  decision_intelligence : Bool
  cached : Bool
deriving DecidableEq, Repr

/-- The old-format-to-new-format mapping applied to a cached sibling JSON
(src/trend_processor.py lines 80-93). -/
def statsOfCached (d : Analysis) : TStats :=
  { completed := if d.loop_completion.completed then 1 else 0
    exit_at_step_one := d.loop_completion.exit_at_step_one
    skipped_validation := d.loop_completion.skipped_validation
    exit_step := d.breakdown.exit_step
    failure_reason := d.breakdown.failure_reason
    novel_patterns := d.insights.novel_patterns
    ai_partnership := d.insights.ai_partnership
    ai_as_critic := d.insights.ai_as_critic
    decision_intelligence := d.insights.decision_intelligence
    cached := true }

/-- `TrendProcessor._process_file_with_cache` (src/trend_processor.py
lines 61-104).  On a cache hit (`_should_process_file` false) the sibling
JSON is opened and parsed with no exception handler, so an unreadable or
corrupt sibling (`cachedContent = none`) raises out of the per-item step
(`Except.error`); otherwise the old format is mapped to the new one.  On
a cache miss the file is freshly processed (`freshStats`, the result of
`_process_file`) and tagged `cached := false`. -/
def process_file_with_cache (force_reprocess jsonExists : Bool)
    (mdMtime jsonMtime : ℚ) (cachedContent : Option Analysis)
    (freshStats : TStats) : Except String TStats :=
  if !should_process_file force_reprocess jsonExists mdMtime jsonMtime then
    match cachedContent with
    | none => Except.error "JSONDecodeError"
    | some d => Except.ok (statsOfCached d)
  else
    Except.ok { freshStats with cached := false }

/-- The collection loop of `TrendProcessor.analyze_directory`
(src/trend_processor.py lines 147-160): completed per-item results are
appended to `stats_list`; an exception raised by a per-item step is
caught and counted in `errors`, and contributes no statistics. -/
def collectResults (results : List (Except String TStats)) : List TStats × Nat :=
  results.foldl
    (fun acc r =>
      match r with
      | Except.ok s => (acc.1 ++ [s], acc.2)
      | Except.error _ => (acc.1, acc.2 + 1))
    ([], 0)

/-! ## Gateway-response parsing (TrendProcessor._analyze_with_openai)

src/trend_processor.py lines 166-273.  The response text handling is
embedded as a pure function of the raw response; `json.loads` (a Python
standard-library routine, external to this repository) is an abstract
parameter that either produces a structured `Analysis` or fails. -/

/-- Python `str.find(pat, start)` as an optional index: the least
position `≥ start` where the pattern occurs. -/
def findFrom (l pat : List Char) (start : Nat) : Option Nat :=
  ((List.range (l.length + 1)).filter
    (fun i => decide (start ≤ i) && occursAt l pat i)).head?

/-- Python `str.rfind(pat)` as an optional index: the greatest position
where the pattern occurs. -/
def rfindPos (l pat : List Char) : Option Nat :=
  ((List.range (l.length + 1)).filter (fun i => occursAt l pat i)).getLast?

/-- The code-fence stripping of src/trend_processor.py lines 193-201,
applied to the stripped response `result`: when it starts with three
backticks, keep the text between the first newline after the opening
fence and the last fence, strip it, and drop a leading `json` tag.
Python string slicing `result[start:end]` is `(take end).drop start`;
`str.strip()` is `pyStrip`. -/
def code_fence_strip (result : String) : String :=
  if pyStartsWith result "```" then
    let cs := result.toList
    -- `result.find('```')` is 0 in this branch, as `result` starts with the fence
    let fencePos := (findFrom cs "```".toList 0).getD 0
    let start :=
      match findFrom cs "\n".toList fencePos with
      | some j => j + 1
      | none => 0       -- Python `find` returns -1 here, and -1 + 1 = 0
    let stop := (rfindPos cs "```".toList).getD 0
    let sliced := pyStrip (String.mk ((cs.take stop).drop start))
    if pyStartsWith sliced "json\n" then
      pyStrip (String.mk (sliced.toList.drop 5))
    else sliced
  else result

/-- The default shape a bare `yes`/`no` response is mapped to
(src/trend_processor.py lines 206-224). -/
def yes_no_analysis (is_completed : Bool) : Analysis :=
  { loop_completion :=
      { completed := is_completed
        exit_at_step_one := !is_completed
        skipped_validation := false }
    breakdown :=
      { exit_step := if is_completed then "none" else "step_1"
        failure_reason :=
          if is_completed then "none"
          else "Insufficient information for detailed analysis" }
    insights :=
      { novel_patterns := false
        ai_partnership := false
        ai_as_critic := false
        decision_intelligence := false } }

/-- The explicit default substituted when every parse attempt fails and
the re-raised `JSONDecodeError` is caught (src/trend_processor.py
lines 250-257): completed false, exit at step one, unknown exit step,
and a failure reason carrying the parse error. -/
def json_error_analysis (errMsg : String) : Analysis :=
  { loop_completion :=
      { completed := false
        exit_at_step_one := true
        skipped_validation := false }
    breakdown :=
      { exit_step := "unknown"
        failure_reason := "JSON parsing error: " ++ errMsg }
    insights :=
      { novel_patterns := false
        ai_partnership := false
        ai_as_critic := false
        decision_intelligence := false } }

/-- Response handling of `TrendProcessor._analyze_with_openai`
(src/trend_processor.py lines 190-257), in the source's order: strip the
response, strip code fences, map a bare `yes`/`no` (case-insensitively)
to the default shape, try a strict JSON parse, retry after replacing
single quotes by double quotes, and on total failure substitute the
explicit error default (the `raise je` at line 242 is caught by the
enclosing `except json.JSONDecodeError` at line 250). -/
def analyze_response (jsonParse : String → Option Analysis) (errMsg : String)
    (raw : String) : Analysis :=
  let result := code_fence_strip (pyStrip raw)
  if pyLower result = "yes" ∨ pyLower result = "no" then
    yes_no_analysis (pyLower result = "yes")
  else
    match jsonParse result with
    | some a => a
    | none =>
      match jsonParse (pyReplace result "'" "\"") with
      | some a => a
      | none => json_error_analysis errMsg

/-- The attempt order as the specification words it (code-fence
stripping, strict JSON parse, quote-normalization-then-parse, then the
yes/no fallback, then the error default).  This definition follows the
spec's words and is compared with `analyze_response`, which follows the
source. -/
def analyze_response_specOrder (jsonParse : String → Option Analysis)
    (errMsg : String) (raw : String) : Analysis :=
  let result := code_fence_strip (pyStrip raw)
  match jsonParse result with
  | some a => a
  | none =>
    match jsonParse (pyReplace result "'" "\"") with
    | some a => a
    | none =>
      if pyLower result = "yes" ∨ pyLower result = "no" then
        yes_no_analysis (pyLower result = "yes")
      else json_error_analysis errMsg

/-! ## Aggregate summary (TrendProcessor._generate_summary)

src/trend_processor.py lines 315-418.  Python's true division of ints
yields a float and raises `ZeroDivisionError` on a zero denominator;
divisions that the source leaves unguarded are embedded through `pyDiv`
(an `Option`), and divisions the source guards with a positivity check
keep the guard.  The numbers involved are exact in both arithmetics. -/

/-- Python division as the source faces it: `none` models
`ZeroDivisionError`. -/
def pyDiv (a b : ℚ) : Option ℚ :=
  if b = 0 then none else some (a / b)

/-- `exit_steps[exit_step] = exit_steps.get(exit_step, 0) + 1` on an
insertion-ordered association list (Python dict semantics). -/
def bumpKey (acc : List (String × Nat)) (k : String) : List (String × Nat) :=
  match acc with
  | [] => [(k, 1)]
  | (k₀, c) :: rest => if k₀ = k then (k₀, c + 1) :: rest else (k₀, c) :: bumpKey rest k

/-- `normalize_reason` (src/trend_processor.py lines 347-366): lower-case
and strip, then bucket by substring matching, with a
space-to-underscore fallback. -/
def normalize_reason (reason : String) : String :=
  let r := pyStrip (pyLower reason)
  if pyContains r "insufficient" || pyContains r "not enough" then "insufficient_information"
  else if pyContains r "unclear" || pyContains r "ambiguous" then "unclear_requirements"
  else if pyContains r "invalid" || pyContains r "malformed" then "invalid_format"
  else if pyContains r "timeout" || pyContains r "no response" then "timeout"
  else if r = "none" then "none"
  else if r = "unknown" then "unknown"
  else pyReplace r " " "_"

/-- The fully-populated summary returned on the main path of
`_generate_summary` (src/trend_processor.py lines 375-418), field by
field in the source's order. -/
structure FullSummary where
  totalAnalyzed : Nat
  stepOneExits : Nat
  stepOneExitRate : ℚ
  engagedConversations : Nat
  completedRate : ℚ
  skippedValidationRate : ℚ
  exitSteps : List (String × Nat)
  novelPatternsRate : ℚ
  aiPartnershipRate : ℚ
  aiAsCriticRate : ℚ
  decisionIntelligenceRate : ℚ
  partnerships : Nat
  partnershipCompletions : Nat
  partnershipSuccessRate : ℚ
  nonPartnershipSuccessRate : ℚ
  criticUsage : Nat
  criticCompletions : Nat
  criticSuccessRate : ℚ
  decisionUsage : Nat
  decisionCompletions : Nat
  decisionSuccessRate : ℚ
deriving DecidableEq, Repr

/-- The three return shapes of `_generate_summary`: the empty-input
shape (line 326), the all-step-one-exits shape (lines 332-337), and the
full summary. -/
inductive Summary
  | empty
  | allStepOne (totalChats : Nat)
  | full (s : FullSummary)
deriving DecidableEq, Repr

/-- `TrendProcessor._generate_summary` (src/trend_processor.py
lines 315-418).  `none` models an uncaught `ZeroDivisionError`. -/
def generate_summary (stats_list : List TStats) : Option Summary :=
  let total_chats := stats_list.length
  if total_chats = 0 then some Summary.empty
  else
    let engaged_chats := stats_list.filter (fun s => !s.exit_at_step_one)
    let total_engaged := engaged_chats.length
    if total_engaged = 0 then some (Summary.allStepOne total_chats)
    else
      let completed := engaged_chats.countP (fun s => s.completed == 1)
      let skipped_validation := engaged_chats.countP (fun s => s.skipped_validation)
      let novel_patterns := engaged_chats.countP (fun s => s.novel_patterns)
      let ai_partnership := engaged_chats.countP (fun s => s.ai_partnership)
      let ai_as_critic := engaged_chats.countP (fun s => s.ai_as_critic)
      let decision_intelligence := engaged_chats.countP (fun s => s.decision_intelligence)
      let exit_steps := engaged_chats.foldl
        (fun acc s => if s.completed ≠ 1 then bumpKey acc s.exit_step else acc) []
      do
        let stepOneRatio ← pyDiv ((total_chats - total_engaged : Nat) : ℚ) (total_chats : ℚ)
        let completedRatio ← pyDiv (completed : ℚ) (total_engaged : ℚ)
        let skippedRatio ← pyDiv (skipped_validation : ℚ) (total_engaged : ℚ)
        let novelRatio ← pyDiv (novel_patterns : ℚ) (total_engaged : ℚ)
        let partnershipRatio ← pyDiv (ai_partnership : ℚ) (total_engaged : ℚ)
        let criticRatio ← pyDiv (ai_as_critic : ℚ) (total_engaged : ℚ)
        let decisionRatio ← pyDiv (decision_intelligence : ℚ) (total_engaged : ℚ)
        pure (Summary.full
          { totalAnalyzed := total_chats
            stepOneExits := total_chats - total_engaged
            stepOneExitRate := stepOneRatio * 100
            engagedConversations := total_engaged
            completedRate := completedRatio * 100
            skippedValidationRate := skippedRatio * 100
            exitSteps := exit_steps
            novelPatternsRate := novelRatio * 100
            aiPartnershipRate := partnershipRatio * 100
            aiAsCriticRate := criticRatio * 100
            decisionIntelligenceRate := decisionRatio * 100
            partnerships := ai_partnership
            partnershipCompletions :=
              engaged_chats.countP (fun s => s.ai_partnership && s.completed == 1)
            partnershipSuccessRate :=
              if ai_partnership > 0 then
                ((engaged_chats.countP (fun s => s.ai_partnership && s.completed == 1) : ℚ) /
                  (ai_partnership : ℚ)) * 100
              else 0
            nonPartnershipSuccessRate :=
              if total_engaged - ai_partnership > 0 then
                ((engaged_chats.countP (fun s => !s.ai_partnership && s.completed == 1) : ℚ) /
                  ((total_engaged - ai_partnership : Nat) : ℚ)) * 100
              else 0
            criticUsage := ai_as_critic
            criticCompletions :=
              engaged_chats.countP (fun s => s.ai_as_critic && s.completed == 1)
            criticSuccessRate :=
              if ai_as_critic > 0 then
                ((engaged_chats.countP (fun s => s.ai_as_critic && s.completed == 1) : ℚ) /
                  (ai_as_critic : ℚ)) * 100
              else 0
            decisionUsage := decision_intelligence
            decisionCompletions :=
              engaged_chats.countP (fun s => s.decision_intelligence && s.completed == 1)
            decisionSuccessRate :=
              if decision_intelligence > 0 then
                ((engaged_chats.countP (fun s => s.decision_intelligence && s.completed == 1) : ℚ) /
                  (decision_intelligence : ℚ)) * 100
              else 0 })

/-! ## Claim theorems -/

/-- Claim C1, counterexample: with an empty output directory and a
`KeyboardInterrupt` raised during the gateway call,
`analyze_and_save_chat` returns the status `cancelled`
(src/conversation_data.py lines 155-157), which lies outside the claimed
four-value set `{success, skipped, format_error, api_error}`. -/
theorem c1_counterexample :
    (analyze_and_save_chat ⟨none, none⟩ [] GatewayResult.interrupt).2.1 = Status.cancelled ∧
    Status.cancelled ∉
      [Status.success, Status.skipped, Status.format_error, Status.api_error] := by
  constructor
  · rfl
  · decide

/-- Claim C1, amended: every call of `analyze_and_save_chat` returns one
of exactly five statuses -- `success`, `skipped`, `format_error`,
`api_error`, `cancelled` -- and `cancelled` occurs exactly when a
`KeyboardInterrupt` is raised during the gateway call of a job that was
not skipped. -/
theorem c1_amended_five_statuses (fs : JobFS) (messages : List ChatMsg)
    (gw : GatewayResult) :
    (analyze_and_save_chat fs messages gw).2.1 ∈
      [Status.success, Status.skipped, Status.format_error, Status.api_error,
        Status.cancelled] ∧
    ((analyze_and_save_chat fs messages gw).2.1 = Status.cancelled ↔
      fs.final = none ∧ token_limit_exceeded messages = false ∧
        gw = GatewayResult.interrupt) := by
  unfold analyze_and_save_chat
  cases hf : fs.final with
  | some s => simp [hf]
  | none =>
    by_cases ht : token_limit_exceeded messages
    · simp [hf, ht]
    · cases gw with
      | timeout => simp [hf, ht]
      | interrupt => simp [hf, ht]
      | failure => simp [hf, ht]
      | response content =>
        by_cases htr : analysisTruthy content
        · by_cases hv : verify_md_format (content.getD "")
          · simp [hf, ht, htr, hv]
          · simp [hf, ht, htr, hv]
        · simp [hf, ht, htr]

/-- Claim C3: when the gateway's report text misses at least one
required section heading, `verify_md_format` rejects it, and the job:
leaves no temporary file, writes nothing under the final report name,
and returns `format_error`. -/
theorem c3_missing_section_format_error (fs : JobFS) (messages : List ChatMsg)
    (analysis : String)
    (hfinal : fs.final = none)
    (htok : token_limit_exceeded messages = false)
    (hne : analysis ≠ "")
    (hmiss : ∃ sec ∈ required_sections, pyContains analysis sec = false) :
    verify_md_format analysis = false ∧
    analyze_and_save_chat fs messages (GatewayResult.response (some analysis)) =
      ({ final := none, temp := none }, Status.format_error, true) := by
  have hv : verify_md_format analysis = false := by
    unfold verify_md_format
    obtain ⟨sec, hsec, hcont⟩ := hmiss
    by_cases h1 : (generic_content_indicators.any fun ind => pyContains analysis ind) = true
    · simp [h1]
    · have hmem : sec ∈ required_sections.filter (fun s => !pyContains analysis s) :=
        List.mem_filter.2 ⟨hsec, by simp [hcont]⟩
      have hnonempty : required_sections.filter (fun s => !pyContains analysis s) ≠ [] := by
        intro hempty
        rw [hempty] at hmem
        exact absurd hmem (List.not_mem_nil _)
      simp [h1, hnonempty]
  refine ⟨hv, ?_⟩
  unfold analyze_and_save_chat
  have htr : analysisTruthy (some analysis) = true := by
    simp [analysisTruthy, hne]
  simp [hfinal, htok, htr, hv]

/-- Claim C3, witness at a concrete report text. -/
theorem c3_witness :
    verify_md_format "no sections here" = false ∧
    analyze_and_save_chat ⟨none, none⟩ []
        (GatewayResult.response (some "no sections here")) =
      ({ final := none, temp := none }, Status.format_error, true) :=
  c3_missing_section_format_error ⟨none, none⟩ [] "no sections here" rfl (by decide)
    (by decide) ⟨"# 1. Brief Summary", by decide, by decide⟩

/-- Claim C4: when the output file does not exist and the estimated
token count exceeds the 120000 ceiling, the job returns `skipped`, the
filesystem is untouched, and the gateway is not called. -/
theorem c4_admission_skip (fs : JobFS) (messages : List ChatMsg)
    (gw : GatewayResult)
    (hfinal : fs.final = none)
    (htok : token_limit_exceeded messages = true) :
    analyze_and_save_chat fs messages gw = (fs, Status.skipped, false) := by
  unfold analyze_and_save_chat
  simp [hfinal, htok]

/-- Claim C4, witness: one message of `str` length 480001 makes the
quarter-length estimate exceed 120000, and the job is skipped with no
gateway call, whatever the gateway would have done. -/
theorem c4_witness :
    analyze_and_save_chat ⟨none, none⟩ [⟨480001⟩] GatewayResult.failure =
      (⟨none, none⟩, Status.skipped, false) :=
  c4_admission_skip ⟨none, none⟩ [⟨480001⟩] GatewayResult.failure rfl (by decide)

theorem skip_when_final_exists (fs : JobFS) (messages : List ChatMsg)
    (gw : GatewayResult) (h : fs.final.isSome = true) :
    analyze_and_save_chat fs messages gw = (fs, Status.skipped, false) := by
  unfold analyze_and_save_chat
  simp [h]

theorem success_final_isSome (fs : JobFS) (messages : List ChatMsg)
    (gw : GatewayResult)
    (h : (analyze_and_save_chat fs messages gw).2.1 = Status.success) :
    (analyze_and_save_chat fs messages gw).1.final.isSome = true := by
  unfold analyze_and_save_chat at h ⊢
  by_cases h1 : fs.final.isSome = true
  · simp [h1] at h
  · by_cases h2 : token_limit_exceeded messages = true
    · simp [h1, h2] at h
    · cases gw with
      | timeout => simp [h1, h2] at h
      | interrupt => simp [h1, h2] at h
      | failure => simp [h1, h2] at h
      | response content =>
        by_cases h3 : analysisTruthy content = true
        · by_cases h4 : verify_md_format (content.getD "") = true
          · simp [h1, h2, h3, h4]
          · simp [h1, h2, h3, h4] at h
        · simp [h1, h2, h3] at h

/-- Claim C5: re-running a job over the same inputs is idempotent -- an
item whose report file already exists is skipped without a gateway call
and with the filesystem (hence every written report byte) unchanged; in
particular a second run after a `success` run returns `skipped` and
leaves the first run's state intact, and over any batch of jobs every
previously-successful item's second-run outcome is `skipped` (so the
second tally has zero `success` for those items). -/
theorem c5_second_run_idempotent :
    (∀ (fs : JobFS) (messages : List ChatMsg) (gw : GatewayResult),
      fs.final.isSome = true →
      analyze_and_save_chat fs messages gw = (fs, Status.skipped, false)) ∧
    (∀ (fs : JobFS) (messages messages₂ : List ChatMsg) (gw₁ gw₂ : GatewayResult),
      (analyze_and_save_chat fs messages gw₁).2.1 = Status.success →
      analyze_and_save_chat (analyze_and_save_chat fs messages gw₁).1 messages₂ gw₂ =
        ((analyze_and_save_chat fs messages gw₁).1, Status.skipped, false)) ∧
    (∀ (jobs : List (JobFS × List ChatMsg × GatewayResult × GatewayResult)),
      ((jobs.filter
          (fun j => (analyze_and_save_chat j.1 j.2.1 j.2.2.1).2.1 = Status.success)).map
        (fun j =>
          (analyze_and_save_chat (analyze_and_save_chat j.1 j.2.1 j.2.2.1).1
            j.2.1 j.2.2.2).2.1)).all
        (fun s => s = Status.skipped) = true) := by
  refine ⟨skip_when_final_exists, ?_, ?_⟩
  · intro fs messages messages₂ gw₁ gw₂ h
    exact skip_when_final_exists _ _ _ (success_final_isSome fs messages gw₁ h)
  · intro jobs
    rw [List.all_eq_true]
    intro s hs
    obtain ⟨j, hj, hjs⟩ := List.mem_map.1 hs
    have hsucc := (List.mem_filter.1 hj).2
    rw [← hjs]
    have hskip := skip_when_final_exists (analyze_and_save_chat j.1 j.2.1 j.2.2.1).1
      j.2.1 j.2.2.2
      (success_final_isSome j.1 j.2.1 j.2.2.1 (by simpa using hsucc))
    simp [hskip]

/-- Claim C5, witness: a job whose report file already exists is skipped
with no gateway call and an unchanged filesystem. -/
theorem c5_witness :
    analyze_and_save_chat ⟨some "report", none⟩ [] GatewayResult.failure =
      (⟨some "report", none⟩, Status.skipped, false) :=
  c5_second_run_idempotent.1 ⟨some "report", none⟩ [] GatewayResult.failure rfl

/-- Claim C6: `_should_process_file` returns `False` exactly when the
force-reprocess flag is unset, the sibling JSON exists, and the JSON's
modification time is at least the markdown input's; with the flag set it
returns `True` for every input. -/
theorem c6_should_process_characterisation :
    (∀ (force jsonExists : Bool) (mdMtime jsonMtime : ℚ),
      (should_process_file force jsonExists mdMtime jsonMtime = false ↔
        force = false ∧ jsonExists = true ∧ mdMtime ≤ jsonMtime)) ∧
    (∀ (jsonExists : Bool) (mdMtime jsonMtime : ℚ),
      should_process_file true jsonExists mdMtime jsonMtime = true) := by
  constructor
  · intro force jsonExists mdMtime jsonMtime
    cases force with
    | true => simp [should_process_file]
    | false =>
      cases jsonExists with
      | true =>
        by_cases hj : mdMtime ≤ jsonMtime
        · simp [should_process_file, hj]
        · simp [should_process_file, hj]
      | false => simp [should_process_file]
  · intro jsonExists mdMtime jsonMtime
    simp [should_process_file]

/-- A concrete per-file statistics record, used at concrete inputs
below. -/
def sampleStats : TStats :=
  { completed := 1
    exit_at_step_one := false
    skipped_validation := false
    exit_step := "none"
    failure_reason := "none"
    novel_patterns := false
    ai_partnership := false
    ai_as_critic := false
    decision_intelligence := false
    cached := false }

/-- Claim C7, counterexample: with the force flag unset, an up-to-date
sibling JSON (markdown mtime 1, JSON mtime 2) that is corrupt
(unparseable), `_process_file_with_cache` raises the parse error out of
the per-item step instead of reprocessing: the result is the propagated
`JSONDecodeError`, not any statistics record. -/
theorem c7_counterexample :
    process_file_with_cache false true 1 2 none sampleStats =
      Except.error "JSONDecodeError" := by
  rfl

/-- Claim C7, amended: when a fresh-looking cached sibling exists but
cannot be read or parsed, the per-item step propagates the error
(`Except.error`) rather than reprocessing, and the enclosing collection
loop of `analyze_directory` then counts one error and collects no
statistics for the item. -/
theorem c7_corrupt_cache_propagates (mdMtime jsonMtime : ℚ) (freshStats : TStats)
    (h : mdMtime ≤ jsonMtime) :
    process_file_with_cache false true mdMtime jsonMtime none freshStats =
      Except.error "JSONDecodeError" ∧
    collectResults [process_file_with_cache false true mdMtime jsonMtime none freshStats] =
      ([], 1) := by
  have hs : should_process_file false true mdMtime jsonMtime = false := by
    simp [should_process_file, h]
  constructor
  · simp [process_file_with_cache, hs]
  · simp [collectResults, process_file_with_cache, hs]

/-- Claim C7, witness at concrete modification times. -/
theorem c7_witness :
    process_file_with_cache false true 3 7 none sampleStats =
      Except.error "JSONDecodeError" ∧
    collectResults [process_file_with_cache false true 3 7 none sampleStats] =
      ([], 1) :=
  c7_corrupt_cache_propagates 3 7 sampleStats (by norm_num)

/-- Claim C8: for every JSON-parse behaviour that fails on the bare
yes/no strings (as Python's `json.loads` does -- neither `yes` nor `no`
in any casing is valid JSON, and quote replacement does not change
them), the source's response handling is extensionally the attempt chain
in the spec's order -- code-fence stripping, strict parse,
quote-normalization-then-reparse, yes/no fallback -- and on every
response for which all attempts fail it returns the explicit default
record (`completed` false, `exit_step` unknown, error `failure_reason`)
instead of raising. -/
theorem c8_parse_chain_and_default (jsonParse : String → Option Analysis)
    (errMsg : String)
    (hyn : ∀ s : String, (pyLower s = "yes" ∨ pyLower s = "no") →
      jsonParse s = none ∧ jsonParse (pyReplace s "'" "\"") = none) :
    (∀ raw : String,
      analyze_response jsonParse errMsg raw =
        analyze_response_specOrder jsonParse errMsg raw) ∧
    (∀ raw : String,
      ¬(pyLower (code_fence_strip (pyStrip raw)) = "yes" ∨
        pyLower (code_fence_strip (pyStrip raw)) = "no") →
      jsonParse (code_fence_strip (pyStrip raw)) = none →
      jsonParse (pyReplace (code_fence_strip (pyStrip raw)) "'" "\"") = none →
      analyze_response jsonParse errMsg raw = json_error_analysis errMsg) := by
  constructor
  · intro raw
    unfold analyze_response analyze_response_specOrder
    by_cases hy : pyLower (code_fence_strip (pyStrip raw)) = "yes" ∨
        pyLower (code_fence_strip (pyStrip raw)) = "no"
    · obtain ⟨hp1, hp2⟩ := hyn (code_fence_strip (pyStrip raw)) hy
      simp only [hp1, hp2, if_pos hy]
    · simp only [if_neg hy]
  · intro raw hy h1 h2
    unfold analyze_response
    simp only [hy, if_neg, h1, h2]
    simp

/-- Claim C8, witness: with a parser that fails on everything, a
non-yes/no response falls through every attempt to the explicit error
default. -/
theorem c8_witness :
    analyze_response (fun _ => none) "boom" "this is not JSON" =
      json_error_analysis "boom" :=
  (c8_parse_chain_and_default (fun _ => none) "boom"
      (fun _ _ => ⟨rfl, rfl⟩)).2 "this is not JSON" (by decide) rfl rfl

/-- A per-file record carrying a free-text failure reason, engaged and
not completed, used at concrete inputs below. -/
def reasonStatsA : TStats :=
  { completed := 0
    exit_at_step_one := false
    skipped_validation := false
    exit_step := "step_2"
    failure_reason := "not enough information"
    novel_patterns := false
    ai_partnership := false
    ai_as_critic := false
    decision_intelligence := false
    cached := false }

/-- The same record with an arbitrary different free-text reason. -/
def reasonStatsB : TStats :=
  { reasonStatsA with failure_reason := "some entirely different raw text" }

theorem generate_summary_reason_invariant (stats_list : List TStats)
    (f : TStats → String) :
    generate_summary (stats_list.map (fun s => { s with failure_reason := f s })) =
      generate_summary stats_list := by
  have key : (stats_list.map (fun s => { s with failure_reason := f s })).filter
      (fun s => !s.exit_at_step_one) =
      (stats_list.filter (fun s => !s.exit_at_step_one)).map
        (fun s => { s with failure_reason := f s }) := by
    rw [List.filter_map]
    rfl
  simp only [generate_summary, List.length_map, key, List.countP_map, List.foldl_map]
  rfl

/-- Claim C9, counterexample: `_generate_summary` never applies
`normalize_reason` (the function is defined but not called), and its
summary carries no failure-reason value at all: two inputs that differ
only in their free-text failure reason -- one of which normalizes to the
canonical bucket `insufficient_information` -- produce identical
summaries, so no (normalized) reason is ever counted in the summary. -/
theorem c9_counterexample :
    generate_summary [reasonStatsA] = generate_summary [reasonStatsB] ∧
    normalize_reason "not enough information" = "insufficient_information" ∧
    reasonStatsA.failure_reason ≠ reasonStatsB.failure_reason := by
  refine ⟨?_, by decide, by decide⟩
  exact generate_summary_reason_invariant [reasonStatsA]
    (fun _ => "some entirely different raw text")

/-- Claim C9, amended: `normalize_reason` does map every free-text
reason into the canonical buckets (or the space-to-underscore fallback)
by substring matching, but `_generate_summary` never invokes it: the
summary is invariant under arbitrary rewrites of every record's
`failure_reason`, so it contains no reason value, raw or normalized. -/
theorem c9_summary_ignores_reasons :
    (∀ (stats_list : List TStats) (f : TStats → String),
      generate_summary (stats_list.map (fun s => { s with failure_reason := f s })) =
        generate_summary stats_list) ∧
    (∀ reason : String,
      normalize_reason reason = "insufficient_information" ∨
      normalize_reason reason = "unclear_requirements" ∨
      normalize_reason reason = "invalid_format" ∨
      normalize_reason reason = "timeout" ∨
      normalize_reason reason = "none" ∨
      normalize_reason reason = "unknown" ∨
      normalize_reason reason = pyReplace (pyStrip (pyLower reason)) " " "_") := by
  refine ⟨generate_summary_reason_invariant, ?_⟩
  intro reason
  unfold normalize_reason
  dsimp only
  split_ifs <;> simp

/-- Claim C10: `_generate_summary` is defined for every input list --
the empty list and the all-step-one-exit list return early, and every
division it performs is guarded (`total_chats` and `total_engaged` are
nonzero past the early returns; the partnership, critic and
decision-intelligence ratios carry explicit positivity guards), so no
`ZeroDivisionError` is possible. -/
theorem c10_no_zero_division (stats_list : List TStats) :
    (generate_summary stats_list).isSome = true := by
  unfold generate_summary
  by_cases h0 : stats_list.length = 0
  · simp [h0]
  · by_cases h1 : (stats_list.filter (fun s => !s.exit_at_step_one)).length = 0
    · simp [h0, h1]
    · have hc : ((stats_list.length : ℚ)) ≠ 0 := by exact_mod_cast h0
      have he : (((stats_list.filter (fun s => !s.exit_at_step_one)).length : ℚ)) ≠ 0 := by
        exact_mod_cast h1
      simp [h0, h1, pyDiv, hc, he]

end ChatAnalysis
